import Mathlib

/-!
# Verification of the imbatracer VCM/BPT rendering core

Shallow embedding of the MIS-weight bookkeeping, radius schedule, merging,
connection, seeding, material sampling and path-tracer logic of the
imbatracer renderer, together with theorems settling the specification
claims about them.

Floating-point arithmetic is idealized as exact arithmetic over `ℚ`
(respectively `ℝ` where the code uses `powf` or the constant `pi`).
-/

namespace Imbatracer

/-! ## MIS partial weights (vcm.cpp)

`VCMState` carries the three partial MIS weights `dVCM`, `dVC`, `dVM`.
`mis_heuristic` in the source is the identity function. -/

/-- The three partial MIS quantities carried in a `VCMState`. -/
structure MisPartials where
  dVCM : ℚ
  dVC  : ℚ
  dVM  : ℚ
  deriving Repr, DecidableEq

/-- `mis_heuristic` from vcm.cpp: the identity (balance heuristic, power 1). -/
def mis_heuristic (a : ℚ) : ℚ := a

/-- MIS update performed by `VCMIntegrator::bounce` (vcm.cpp lines 176-189).
`wVC`/`wVM` are the members `mis_weight_vc_`/`mis_weight_vm_`; `pdf_dir_w` and
`pdf_rev_w` are the forward and reverse solid-angle pdfs of the sampled
direction, `rr_pdf` the Russian-roulette acceptance probability and
`cos_theta_i` the cosine `fabsf(dot(sample_dir, isect.normal))`. -/
def bounceMis (wVC wVM : ℚ) (is_specular : Bool)
    (pdf_dir_w pdf_rev_w rr_pdf cos_theta_i : ℚ) (s : MisPartials) : MisPartials :=
  if is_specular then
    { dVCM := 0
      dVC  := s.dVC * mis_heuristic cos_theta_i
      dVM  := s.dVM * mis_heuristic cos_theta_i }
  else
    { dVC  := mis_heuristic (cos_theta_i / (pdf_dir_w * rr_pdf)) *
              (s.dVC * mis_heuristic (pdf_rev_w * rr_pdf) + s.dVCM + wVM)
      dVM  := mis_heuristic (cos_theta_i / (pdf_dir_w * rr_pdf)) *
              (s.dVM * mis_heuristic (pdf_rev_w * rr_pdf) + s.dVCM + wVC)
      dVCM := mis_heuristic (1 / (pdf_dir_w * rr_pdf)) }

/-- The non-specular bounce update as the specification words it
(§4.H "Bounce update"): `dVM := (cos_i / rp) · (dVM · rq + dVCM · w_VC + 1)`,
with `rp = p_dir · rr` and `rq = p_rev · rr`.  Kept separate from
`bounceMis` so the two can be compared. -/
def bounceMisSpecStated (wVC wVM : ℚ)
    (pdf_dir_w pdf_rev_w rr_pdf cos_theta_i : ℚ) (s : MisPartials) : MisPartials :=
  { dVC  := cos_theta_i / (pdf_dir_w * rr_pdf) *
            (s.dVC * (pdf_rev_w * rr_pdf) + s.dVCM + wVM)
    dVM  := cos_theta_i / (pdf_dir_w * rr_pdf) *
            (s.dVM * (pdf_rev_w * rr_pdf) + s.dVCM * wVC + 1)
    dVCM := 1 / (pdf_dir_w * rr_pdf) }

/-- The non-specular bounce update as amended after comparison with the code:
with `rp = p_dir · rr` and `rq = p_rev · rr`,
`dVC := (cos_i / rp) · (dVC · rq + dVCM + w_VM)`,
`dVM := (cos_i / rp) · (dVM · rq + dVCM + w_VC)`,
`dVCM := 1 / rp`. -/
def bounceMisAmendedStated (wVC wVM : ℚ)
    (pdf_dir_w pdf_rev_w rr_pdf cos_theta_i : ℚ) (s : MisPartials) : MisPartials :=
  let rp := pdf_dir_w * rr_pdf
  let rq := pdf_rev_w * rr_pdf
  { dVC  := cos_theta_i / rp * (s.dVC * rq + s.dVCM + wVM)
    dVM  := cos_theta_i / rp * (s.dVM * rq + s.dVCM + wVC)
    dVCM := 1 / rp }

/-- MIS initialization of a light subpath by the ray-generation lambda of
`VCMIntegrator::trace_light_paths` (vcm.cpp lines 86-99).  `wVC` is
`mis_weight_vc_`. -/
def initLightMis (wVC : ℚ) (is_delta : Bool)
    (pdf_emit_w pdf_direct_a cos_out pdf_lightpick : ℚ) : MisPartials :=
  let dVCM := mis_heuristic (pdf_direct_a / pdf_emit_w)
  let dVC := if is_delta then 0 else mis_heuristic (cos_out / (pdf_emit_w * pdf_lightpick))
  { dVCM := dVCM, dVC := dVC, dVM := dVC * wVC }

/-- MIS initialization of a camera subpath by the ray-generation lambda of
`VCMIntegrator::trace_camera_paths` (vcm.cpp lines 118-131).  The camera pdf
in solid angle is `sqr(image_plane_dist / cos_theta_o) / cos_theta_o`. -/
def initCameraMis (light_path_count : ℚ) (image_plane_dist cos_theta_o : ℚ) : MisPartials :=
  let pdf_cam_w := (image_plane_dist / cos_theta_o) ^ 2 / cos_theta_o
  { dVC := 0, dVM := 0, dVCM := mis_heuristic (light_path_count / pdf_cam_w) }

/-- Light-subpath initialization as the specification words it for C2:
`dVCM = p_direct_a / p_emit_w` *times `1/pdf_lightpick`*. -/
def initLightMisSpecStated (wVC : ℚ) (is_delta : Bool)
    (pdf_emit_w pdf_direct_a cos_out pdf_lightpick : ℚ) : MisPartials :=
  let dVCM := pdf_direct_a / pdf_emit_w * (1 / pdf_lightpick)
  let dVC := if is_delta then 0 else cos_out / (pdf_emit_w * pdf_lightpick)
  { dVCM := dVCM, dVC := dVC, dVM := dVC * wVC }

/-! ## Progressive photon-mapping radius schedule

`VCMIntegrator::render` (vcm.cpp lines 26-27) and
`DeferredVCM<mis::MisVCM>::render` (deferred_vcm.cpp lines 30-33) both set
`pm_radius_ = max(base_radius / i^(0.5*(1-alpha)), 1e-7)` with
`radius_alpha = 0.75`. -/

/-- The radius exponent `0.5f * (1.0f - radius_alpha)` with `radius_alpha = 0.75`. -/
def radiusAlpha : ℝ := 0.75

/-- `pm_radius_` after `cur_iteration_ = i`: `base_radius_ / powf(i, 0.5*(1-0.75))`,
clamped from below to `1e-7` (vcm.cpp 26-27, deferred_vcm.cpp 30-33). -/
noncomputable def pmRadius (base_radius : ℝ) (i : ℕ) : ℝ :=
  max (base_radius / (i : ℝ) ^ ((0.5 : ℝ) * (1 - radiusAlpha))) (1e-7)

/-- The radius schedule as claim C3 states it: `max(1e-7, r_base · i^{-0.375})`. -/
noncomputable def pmRadiusSpecStated (base_radius : ℝ) (i : ℕ) : ℝ :=
  max (1e-7) (base_radius * (i : ℝ) ^ (-(0.375 : ℝ)))

/-! ## Vertex merging

Per-photon contribution and final scaling of
`DeferredVCM::merge` (deferred_vcm.cpp lines 474-521) and of
`VCMIntegrator::vertex_merging` (vcm.cpp lines 506-543).
`dist_sq = lensqr(p->isect.pos - v.isect.pos)` and `radius_sqr` is the query
radius squared; `cos_abs = fabsf(dot(photon_in_dir, v.isect.normal))`. -/

/-- One photon's contribution inside the loop of `DeferredVCM::merge`
(deferred_vcm.cpp lines 494-514): `mis_weight * bsdf_value
/ fabsf(dot(photon_in_dir, v.isect.normal)) * kernel * p->throughput` with the
Epanechnikov filter `kernel = 1 - d / radius_sqr` (`d` is the squared
distance). -/
noncomputable def deferredMergePhotonContrib
    (mis_weight bsdf_value cos_abs dist_sq radius_sqr throughput : ℝ) : ℝ :=
  mis_weight * bsdf_value / cos_abs * (1 - dist_sq / radius_sqr) * throughput

/-- The factor applied to the summed photon contributions at the end of
`DeferredVCM::merge` (deferred_vcm.cpp line 517):
`2 / (pi * radius_sqr * light_path_count)`. -/
noncomputable def deferredMergeScale (radius_sqr light_path_count : ℝ) : ℝ :=
  2 / (Real.pi * radius_sqr * light_path_count)

/-- One photon's contribution inside the loop of
`VCMIntegrator::vertex_merging` (vcm.cpp line 539):
`mis_weight * bsdf_value * p->throughput` — no kernel, no cosine division. -/
noncomputable def vcmMergePhotonContrib (mis_weight bsdf_value throughput : ℝ) : ℝ :=
  mis_weight * bsdf_value * throughput

/-- `vm_normalization_` from `VCMIntegrator::render` (vcm.cpp line 29):
`1 / (sqr(pm_radius) * pi * light_path_count)`; `vertex_merging` multiplies the
summed photon contributions by it (vcm.cpp line 542). -/
noncomputable def vmNormalization (pm_radius light_path_count : ℝ) : ℝ :=
  1 / (pm_radius ^ 2 * Real.pi * light_path_count)

/-- The per-photon merge weight as claim C4 states it: Epanechnikov kernel
`max(0, 1 - d²/r²) · 2/(π·r²)`, division by `|cos(photon_in_dir, normal)|`,
final scaling by `1/N_light_paths`. -/
noncomputable def specMergePhotonWeight
    (mis_weight bsdf_value cos_abs dist_sq radius_sqr light_path_count throughput : ℝ) : ℝ :=
  mis_weight * bsdf_value * throughput / cos_abs *
    (max 0 (1 - dist_sq / radius_sqr) * (2 / (Real.pi * radius_sqr))) / light_path_count

/-! ## Vertex connection

`VCMIntegrator::connect` (vcm.cpp lines 438-503) loops over all cached light
vertices of the path's pixel; `DeferredVCM::connect` (deferred_vcm.cpp lines
388-471) handles one randomly chosen light vertex per generated shadow ray.
A pair is described by the quantities the code derives from the two
intersections. -/

/-- The data `VCMIntegrator::connect` / `DeferredVCM::connect` compute for one
camera-vertex/light-vertex pair: distance, BSDF values and pdfs at both ends
(the light-side BSDF value already carries the adjoint correction), cosines,
continuation probabilities, the light vertex's stored data and its path
length. -/
structure ConnectPair where
  connect_dist    : ℚ
  connect_dist_sq : ℚ
  bsdf_value_cam  : ℚ
  bsdf_value_light : ℚ
  pdf_dir_cam_w   : ℚ
  pdf_rev_cam_w   : ℚ
  pdf_dir_light_w : ℚ
  pdf_rev_light_w : ℚ
  cos_theta_cam   : ℚ
  cos_theta_light : ℚ
  cont_prob_light : ℚ
  light_dVCM      : ℚ
  light_dVC       : ℚ
  light_throughput : ℚ
  light_path_len  : ℕ
  deriving Repr, DecidableEq

/-- Camera-side state entering `connect`: `cam_state.continue_prob`,
`cam_state.dVCM`, `cam_state.dVC`, `cam_state.throughput`. -/
structure ConnectCamState where
  continue_prob : ℚ
  dVCM : ℚ
  dVC  : ℚ
  throughput : ℚ
  deriving Repr, DecidableEq

/-- The throughput of the shadow ray pushed for one pair by
`VCMIntegrator::connect` (vcm.cpp lines 459-494): geometric term
`max(0, cos_theta_cam * cos_theta_light / connect_dist_sq)`, MIS weight from
the partial weights, multiplied into the camera state's throughput. -/
def vcmConnectContrib (wVM : ℚ) (cs : ConnectCamState) (p : ConnectPair) : ℚ :=
  let geom_term := max 0 (p.cos_theta_cam * p.cos_theta_light / p.connect_dist_sq)
  let pdf_cam_f := p.pdf_dir_cam_w * cs.continue_prob
  let pdf_cam_r := p.pdf_rev_cam_w * cs.continue_prob
  let pdf_light_f := p.pdf_dir_light_w * p.cont_prob_light
  let pdf_light_r := p.pdf_rev_light_w * p.cont_prob_light
  let pdf_cam_a := pdf_cam_f * p.cos_theta_light / p.connect_dist_sq
  let pdf_light_a := pdf_light_f * p.cos_theta_cam / p.connect_dist_sq
  let mis_weight_light := mis_heuristic pdf_cam_a *
    (wVM + p.light_dVCM + p.light_dVC * mis_heuristic pdf_light_r)
  let mis_weight_camera := mis_heuristic pdf_light_a *
    (wVM + cs.dVCM + cs.dVC * mis_heuristic pdf_cam_r)
  let mis_weight := 1 / (mis_weight_camera + 1 + mis_weight_light)
  cs.throughput * (mis_weight * geom_term * p.bsdf_value_cam * p.bsdf_value_light *
    p.light_throughput)

/-- The loop of `VCMIntegrator::connect` (vcm.cpp lines 442-502) over the
light path's vertices, returning the throughputs of the pushed shadow rays.
`if (connect_dist < pm_radius_) return;` exits the whole function, dropping
every remaining pair. -/
def vcmConnect (pm_radius wVM : ℚ) (cs : ConnectCamState) :
    List ConnectPair → List ℚ
  | [] => []
  | p :: rest =>
    if p.connect_dist < pm_radius then []
    else vcmConnectContrib wVM cs p :: vcmConnect pm_radius wVM cs rest

/-- The per-pair body of `DeferredVCM::connect` (deferred_vcm.cpp lines
396-469): `none` when the pair is rejected (light vertex on the light source,
distance below `base_radius_`, or any of the four pdfs zero), otherwise the
contribution with geometric term `1.0f / connect_dist_sq` (cosines contained
in the BSDF values).  `vc_weight` and the MIS weight (computed by
`mis::weight_connect`, outside this file's sources) enter as factors. -/
def deferredConnectPair (base_radius vc_weight mis_weight cam_throughput : ℚ)
    (p : ConnectPair) : Option ℚ :=
  if p.light_path_len = 1 then none
  else if p.connect_dist < base_radius then none
  else if p.pdf_dir_cam_w = 0 ∨ p.pdf_dir_light_w = 0 ∨
          p.pdf_rev_cam_w = 0 ∨ p.pdf_rev_light_w = 0 then none
  else
    let geom_term := 1 / p.connect_dist_sq
    some (cam_throughput * vc_weight * mis_weight * geom_term *
      p.bsdf_value_cam * p.bsdf_value_light * p.light_throughput)

/-! ## RNG seeding in `PixelRayGen::fill_queue` (ray_gen.h lines 46-69)

The C++ code draws `seed_base` from a `std::random_device` on every call of
`fill_queue` and then scrambles it with four Bernstein-hash steps using the
global ray index `i`.  `int` arithmetic is modelled modulo `2^32`. -/

/-- One step `seed = 33 * seed ^ i` of the Bernstein hash (ray_gen.h lines
64-67), on 32-bit values. -/
def bernsteinStep (seed i : ℕ) : ℕ := (33 * seed % 2 ^ 32) ^^^ (i % 2 ^ 32)

/-- The seed computed for ray index `i` in `fill_queue`: `seed = seed_base`
followed by four times `seed = 33 * seed ^ i` (ray_gen.h lines 63-67). -/
def hashSeed (seed_base i : ℕ) : ℕ :=
  bernsteinStep (bernsteinStep (bernsteinStep (bernsteinStep (seed_base % 2 ^ 32) i) i) i) i

/-- The per-ray data set up by `PixelRayGen::fill_queue`: pixel and sample
index, RNG seed, and the argument of `rng.discard` (ray_gen.h lines 59-69). -/
structure RayGenState where
  pixel_id : ℕ
  sample_id : ℕ
  seed : ℕ
  discard_count : ℕ
  deriving Repr, DecidableEq

/-- The list of ray states produced by one call of `PixelRayGen::fill_queue`
(ray_gen.h lines 46-73) for ray indices `next_pixel, ..., next_pixel+count-1`,
given the value `seed_base` that `std::random_device` returned for this call:
`pixel_idx = i % (width*height)`, `sample_idx = i / (width*height)`,
`seed = hashSeed seed_base i`, `rng.discard((seed % 5) + 16 + pixel_idx % 5)`. -/
def fillQueueStates (width height next_pixel count seed_base : ℕ) : List RayGenState :=
  (List.range count).map fun k =>
    let i := next_pixel + k
    let pixel_idx := i % (width * height)
    let sample_idx := i / (width * height)
    let seed := hashSeed seed_base i
    { pixel_id := pixel_idx
      sample_id := sample_idx
      seed := seed
      discard_count := seed % 5 + 16 + pixel_idx % 5 }

/-! ## Materials (material.h, brdfs.h) -/

/-- A 3-vector with components in `α`. -/
structure Vec3 (α : Type) where
  x : α
  y : α
  z : α
  deriving Repr, DecidableEq

/-- Dot product of two 3-vectors. -/
def dot3 {α : Type} [Mul α] [Add α] (a b : Vec3 α) : α :=
  a.x * b.x + a.y * b.y + a.z * b.z

/-- Negation of a 3-vector (`-1.0f * v`). -/
def neg3 {α : Type} [Neg α] (a : Vec3 α) : Vec3 α := ⟨-a.x, -a.y, -a.z⟩

/-- The `Material::Kind` enumeration of material.h. -/
inductive MaterialKind
  | lambert
  | mirror
  | emissive
  | combine
  | glass
  deriving Repr, DecidableEq

/-- The color returned by `LambertMaterial::sample_out` (material.h lines
87-100): the sampled direction and its pdf come from
`sample_cos_hemisphere`; the return value is
`clr * dot(out_dir, surf.normal) * (1/pi) * (1/pdf)`. -/
noncomputable def lambertSampleOutValue (clr : ℝ) (normal hemi_dir : Vec3 ℝ)
    (hemi_pdf : ℝ) : ℝ :=
  clr * dot3 hemi_dir normal * (1 / Real.pi) * (1 / hemi_pdf)

/-- The color returned by `sample_material_out` (material.h lines 302-309),
which dispatches on the material kind.  A body that reaches its closing brace
without a `return` statement (`CombineMaterial::sample_out`,
`MirrorMaterial::sample_out` and `GlassMaterial::sample_out`, material.h lines
136-137, 176-177 and 239-240 — all empty) yields no defined value and is
modelled as `none`.  `EmissiveMaterial::sample_out` returns `float4(0.0f)`
(material.h lines 267-269) and `LambertMaterial::sample_out` returns the
cosine-hemisphere sample value. -/
noncomputable def sample_material_out (kind : MaterialKind) (clr : ℝ)
    (normal hemi_dir : Vec3 ℝ) (hemi_pdf : ℝ) : Option ℝ :=
  match kind with
  | .lambert  => some (lambertSampleOutValue clr normal hemi_dir hemi_pdf)
  | .mirror   => none
  | .emissive => some 0
  | .combine  => none
  | .glass    => none

/-- `Lambertian::eval` from brdfs.h (lines 14-16): returns
`color_ * (1.0f / pi)` for every pair of directions. -/
noncomputable def lambertianEval (color : ℝ) (out_dir in_dir : Vec3 ℝ) : ℝ :=
  color * (1 / Real.pi)

/-- `LambertMaterial::eval` from material.h (lines 102-112): returns the pair
(BSDF value, forward pdf) = `(clr * (1/pi), (1/pi) * dot(surf.normal, in_dir))`;
the reverse pdf equals the forward pdf. -/
noncomputable def lambertMaterialEval (clr : ℝ) (normal in_dir : Vec3 ℝ) : ℝ × ℝ :=
  (clr * (1 / Real.pi), 1 / Real.pi * dot3 normal in_dir)

/-- Two directions lie in opposite hemispheres with respect to the shading
normal when their normal cosines have opposite signs. -/
def mismatchedHemispheres (normal out_dir in_dir : Vec3 ℝ) : Prop :=
  dot3 normal out_dir * dot3 normal in_dir < 0

/-! ## PathTracer emissive hits (pt.cpp lines 29-52) -/

/-- Processing of a camera-ray hit on an emissive material by
`PathTracer::process_primary_rays` (pt.cpp lines 29-52).  Returns the
contribution added to the ray's pixel and whether the path continues (the
branch ends in `continue`, so the path never does).  On the first
intersection (`bounces == 0`) the emitted color is added unweighted; after a
specular bounce the throughput-weighted color is added when
`cos_light = fabsf(dot(isect.surf.normal, -1.0f * isect.out_dir)) < 1.0f`;
otherwise nothing is added. -/
def ptEmissiveHit (bounces : ℕ) (last_specular : Bool)
    (throughput em_color : ℚ) (normal out_dir : Vec3 ℚ) : ℚ × Bool :=
  if bounces = 0 then
    (em_color, false)
  else if last_specular then
    let cos_light := |dot3 normal (neg3 out_dir)|
    if cos_light < 1 then (throughput * em_color, false) else (0, false)
  else
    (0, false)

/-! ## Theorems for the claims -/

/-- C1 (counterexample): the claim's bounce update disagrees with
`VCMIntegrator::bounce`.  At `w_VC = 3`, `w_VM = 5`, all pdfs, `rr` and the
cosine equal to `1`, and incoming partials `(dVCM, dVC, dVM) = (2, 0, 0)`, the
code sets `dVM = 0·1 + 2 + 3 = 5` while the claim's formula
`dVM·rq + dVCM·w_VC + 1` gives `0·1 + 2·3 + 1 = 7`. -/
theorem C1_counterexample :
    (bounceMis 3 5 false 1 1 1 1 ⟨2, 0, 0⟩).dVM ≠
      (bounceMisSpecStated 3 5 1 1 1 1 ⟨2, 0, 0⟩).dVM := by
  norm_num [bounceMis, bounceMisSpecStated, mis_heuristic]

/-- C1 (amended): at every non-specular bounce, `VCMIntegrator::bounce`
updates the partials to `dVC := (cos_i/rp)·(dVC·rq + dVCM + w_VM)`,
`dVM := (cos_i/rp)·(dVM·rq + dVCM + w_VC)` and `dVCM := 1/rp`, where
`rp = p_dir·rr` and `rq = p_rev·rr`. -/
theorem C1_bounce_update (wVC wVM pdf_dir_w pdf_rev_w rr_pdf cos_theta_i : ℚ)
    (s : MisPartials) :
    bounceMis wVC wVM false pdf_dir_w pdf_rev_w rr_pdf cos_theta_i s =
      bounceMisAmendedStated wVC wVM pdf_dir_w pdf_rev_w rr_pdf cos_theta_i s := by
  rfl

/-- C5: after a specular bounce the partials are `dVCM = 0`,
`dVC = old dVC · cos_i` and `dVM = old dVM · cos_i`; the right-hand side does
not mention the forward pdf, the reverse pdf or the Russian-roulette
probability, so no forward-pdf term enters any partial. -/
theorem C5_specular_collapse (wVC wVM pdf_dir_w pdf_rev_w rr_pdf cos_theta_i : ℚ)
    (s : MisPartials) :
    bounceMis wVC wVM true pdf_dir_w pdf_rev_w rr_pdf cos_theta_i s =
      { dVCM := 0, dVC := s.dVC * cos_theta_i, dVM := s.dVM * cos_theta_i } := by
  rfl

/-- C2 (counterexample): the light-subpath initialization of
`VCMIntegrator::trace_light_paths` sets `dVCM = p_direct_a / p_emit_w` with no
`1/pdf_lightpick` factor: at `p_direct_a = p_emit_w = 1` and
`pdf_lightpick = 1/2` the code gives `dVCM = 1` while the claim's
`p_direct_a / p_emit_w · (1/pdf_lightpick)` gives `2`. -/
theorem C2_counterexample :
    (initLightMis 1 false 1 1 1 (1/2)).dVCM ≠
      (initLightMisSpecStated 1 false 1 1 1 (1/2)).dVCM := by
  norm_num [initLightMis, initLightMisSpecStated, mis_heuristic]

/-- C2 (amended): a light subpath starts with
`dVCM = p_direct_a / p_emit_w` — equal to the ratio of the full pdfs
`(p_direct_a·p_lightpick)/(p_emit_w·p_lightpick)` since the lightpick pdf
cancels — `dVC = cos_out/(p_emit_w·p_lightpick)` for a non-delta light and `0`
for a delta light, and `dVM = dVC·w_VC`; a camera subpath starts with
`dVCM = N_light_paths / p_cam_w` where
`p_cam_w = (image_plane_dist/cos_theta_o)²/cos_theta_o`, and `dVC = dVM = 0`. -/
theorem C2_subpath_init (wVC : ℚ) (is_delta : Bool)
    (pdf_emit_w pdf_direct_a cos_out pdf_lightpick : ℚ)
    (light_path_count image_plane_dist cos_theta_o : ℚ)
    (hpl : pdf_lightpick ≠ 0) :
    (initLightMis wVC is_delta pdf_emit_w pdf_direct_a cos_out pdf_lightpick).dVCM =
        pdf_direct_a * pdf_lightpick / (pdf_emit_w * pdf_lightpick) ∧
    (initLightMis wVC is_delta pdf_emit_w pdf_direct_a cos_out pdf_lightpick).dVC =
        (if is_delta then 0 else cos_out / (pdf_emit_w * pdf_lightpick)) ∧
    (initLightMis wVC is_delta pdf_emit_w pdf_direct_a cos_out pdf_lightpick).dVM =
        (initLightMis wVC is_delta pdf_emit_w pdf_direct_a cos_out pdf_lightpick).dVC * wVC ∧
    initCameraMis light_path_count image_plane_dist cos_theta_o =
      { dVCM := light_path_count / ((image_plane_dist / cos_theta_o) ^ 2 / cos_theta_o)
        dVC := 0, dVM := 0 } := by
  refine ⟨?_, rfl, rfl, rfl⟩
  simp only [initLightMis, mis_heuristic]
  rw [mul_div_mul_right _ _ hpl]

/-- C2 witness: the amended initialization at a concrete input. -/
theorem C2_subpath_init_witness :
    (1 : ℚ) / 2 ≠ 0 ∧
    ((initLightMis 1 false 1 1 1 (1/2)).dVCM = 1 * (1/2) / (1 * (1/2)) ∧
     (initLightMis 1 false 1 1 1 (1/2)).dVC = (if false then 0 else 1 / (1 * (1/2))) ∧
     (initLightMis 1 false 1 1 1 (1/2)).dVM = (initLightMis 1 false 1 1 1 (1/2)).dVC * 1 ∧
     initCameraMis 4 1 1 = { dVCM := 4 / ((1 / 1) ^ 2 / 1), dVC := 0, dVM := 0 }) :=
  ⟨by norm_num, C2_subpath_init 1 false 1 1 1 (1/2) 4 1 1 (by norm_num)⟩

/-- Helper: `256^(1/8) = 2`. -/
lemma rpow_256_eighth : (256 : ℝ) ^ ((1 / 8 : ℝ)) = 2 := by
  have h2 : (256 : ℝ) = (2 : ℝ) ^ ((8 : ℕ) : ℝ) := by
    rw [Real.rpow_natCast]; norm_num
  rw [h2, ← Real.rpow_mul (by norm_num : (0 : ℝ) ≤ 2)]
  have h3 : ((8 : ℕ) : ℝ) * ((1 / 8 : ℝ)) = 1 := by norm_num
  rw [h3, Real.rpow_one]

/-- Helper: `256^(−3/8) = 1/8`. -/
lemma rpow_256_neg_three_eighths : (256 : ℝ) ^ (-(3 / 8 : ℝ)) = 1 / 8 := by
  have h2 : (256 : ℝ) = (2 : ℝ) ^ ((8 : ℕ) : ℝ) := by
    rw [Real.rpow_natCast]; norm_num
  rw [h2, ← Real.rpow_mul (by norm_num : (0 : ℝ) ≤ 2)]
  have h3 : ((8 : ℕ) : ℝ) * (-(3 / 8 : ℝ)) = ((-3 : ℤ) : ℝ) := by push_cast; norm_num
  rw [h3, Real.rpow_intCast]
  norm_num

/-- C3 (counterexample): with `r_base = 1` and iteration `i = 256` the code
computes `pm_radius = max(1e-7, 1/256^{0.125}) = 1/2`, while the claim's
formula `max(1e-7, r_base·i^{-0.375})` gives `1/8`. -/
theorem C3_counterexample : pmRadius 1 256 ≠ pmRadiusSpecStated 1 256 := by
  have hcode : pmRadius 1 256 = 1 / 2 := by
    rw [pmRadius, radiusAlpha]
    norm_num [rpow_256_eighth]
  have hspec : pmRadiusSpecStated 1 256 = 1 / 8 := by
    rw [pmRadiusSpecStated]
    norm_num [rpow_256_neg_three_eighths]
  rw [hcode, hspec]
  norm_num

/-- C3 (amended): for every iteration `i`, the photon-merging radius equals
`max(1e-7, r_base · i^{-0.125})`, that is, `r_base · i^{-0.5·(1−α)}` with
`α = 0.75` clamped from below to `1e-7` (the exponent is `−0.125`, not
`−0.375`). -/
theorem C3_radius_schedule (base_radius : ℝ) (i : ℕ) :
    pmRadius base_radius i = max (1e-7) (base_radius * (i : ℝ) ^ (-(0.125 : ℝ))) := by
  have h : ((0.5 : ℝ) * (1 - radiusAlpha)) = 0.125 := by rw [radiusAlpha]; norm_num
  rw [pmRadius, h, Real.rpow_neg (Nat.cast_nonneg i), max_comm, div_eq_mul_inv]

/-- C4 (counterexample): the per-photon pixel contribution of
`VCMIntegrator::vertex_merging` is not the claim's Epanechnikov weight.  With
`mis_weight = bsdf = throughput = 1`, camera throughput `1`, `r = 1`,
`N_light_paths = 1`, photon distance `0` and `|cos| = 1`, the code adds
`1/π` while the claim's kernel weight gives `2/π`. -/
theorem C4_counterexample :
    1 * vcmMergePhotonContrib 1 1 1 * vmNormalization 1 1 ≠
      specMergePhotonWeight 1 1 1 0 1 1 1 := by
  rw [vcmMergePhotonContrib, vmNormalization, specMergePhotonWeight]
  norm_num
  intro h
  field_simp at h

/-- C4 (amended): in `DeferredVCM::merge`, a photon at squared distance
`d² ≤ r²` of the camera vertex (with `r²` the query radius squared)
contributes, after the final scaling, exactly the claim's Epanechnikov weight
`max(0, 1 − d²/r²)·2/(π·r²)` divided by `|cos(photon_in_dir, normal)|` and
scaled by `1/N_light_paths`. -/
theorem C4_merge_deferred (mis_weight bsdf_value cos_abs dist_sq radius_sqr
    light_path_count throughput : ℝ) (hr : 0 < radius_sqr)
    (hd : dist_sq ≤ radius_sqr) :
    deferredMergePhotonContrib mis_weight bsdf_value cos_abs dist_sq radius_sqr throughput *
      deferredMergeScale radius_sqr light_path_count =
    specMergePhotonWeight mis_weight bsdf_value cos_abs dist_sq radius_sqr
      light_path_count throughput := by
  have hker : max 0 (1 - dist_sq / radius_sqr) = 1 - dist_sq / radius_sqr := by
    apply max_eq_right
    rw [sub_nonneg]
    exact div_le_one_of_le₀ hd hr.le
  rw [deferredMergePhotonContrib, deferredMergeScale, specMergePhotonWeight, hker]
  ring

/-- C4 witness: the amended merge weight identity at a concrete input. -/
theorem C4_merge_deferred_witness :
    (0 : ℝ) < 1 ∧ (0 : ℝ) ≤ 1 ∧
    deferredMergePhotonContrib 1 1 1 0 1 1 * deferredMergeScale 1 1 =
      specMergePhotonWeight 1 1 1 0 1 1 1 :=
  ⟨by norm_num, by norm_num,
    C4_merge_deferred 1 1 1 0 1 1 1 (by norm_num) (by norm_num)⟩

/-- C6 (counterexample): in `VCMIntegrator::connect`, the distance test uses
the current merge radius `pm_radius_` and `return`s from the whole function.
With `pm_radius = 1`, a first pair at distance `1/2` makes the loop produce
no contribution at all, even though the second pair (distance `2`, all pdfs
`1`) is acceptable; and a single pair whose forward camera pdf is `0` still
produces a contribution (one shadow ray is pushed). -/
theorem C6_counterexample :
    vcmConnect 1 0 ⟨1, 0, 0, 1⟩
      [⟨1/2, 1/4, 1, 1, 1, 1, 1, 1, 1, 1, 1, 0, 0, 1, 2⟩,
       ⟨2, 4, 1, 1, 1, 1, 1, 1, 1, 1, 1, 0, 0, 1, 2⟩] = [] ∧
    (vcmConnect 1 0 ⟨1, 0, 0, 1⟩
      [⟨2, 4, 1, 1, 0, 1, 1, 1, 1, 1, 1, 0, 0, 1, 2⟩]).length = 1 := by
  constructor
  · norm_num [vcmConnect]
  · norm_num [vcmConnect]

/-- C6 (amended): in `DeferredVCM::connect`, a camera-vertex/light-vertex
pair is rejected — only that pair, each pair being an independent shadow-ray
sample — when the light vertex lies on the light source, when the distance is
below `base_radius_`, or when any of the four pdfs is zero; an accepted pair
contributes with geometric term `1/d²`, the cosines being contained in the
BSDF values (adjoint-corrected on the light side). -/
theorem C6_connect_deferred (base_radius vc_weight mis_weight cam_throughput : ℚ)
    (p : ConnectPair) :
    ((p.connect_dist < base_radius ∨ p.pdf_dir_cam_w = 0 ∨ p.pdf_dir_light_w = 0 ∨
        p.pdf_rev_cam_w = 0 ∨ p.pdf_rev_light_w = 0) →
      deferredConnectPair base_radius vc_weight mis_weight cam_throughput p = none) ∧
    (p.light_path_len ≠ 1 → ¬ p.connect_dist < base_radius →
      p.pdf_dir_cam_w ≠ 0 → p.pdf_dir_light_w ≠ 0 →
      p.pdf_rev_cam_w ≠ 0 → p.pdf_rev_light_w ≠ 0 →
      deferredConnectPair base_radius vc_weight mis_weight cam_throughput p =
        some (cam_throughput * vc_weight * mis_weight * (1 / p.connect_dist_sq) *
          p.bsdf_value_cam * p.bsdf_value_light * p.light_throughput)) := by
  constructor
  · intro h
    rw [deferredConnectPair]
    split_ifs with h1 h2 h3
    · rfl
    · rfl
    · rfl
    · exact absurd h (by tauto)
  · intro hlen hdist h1 h2 h3 h4
    rw [deferredConnectPair, if_neg hlen, if_neg hdist, if_neg (by tauto)]

/-- C6 witness: an accepted pair at distance `2` with unit pdfs. -/
theorem C6_connect_deferred_witness :
    deferredConnectPair 1 1 1 1 ⟨2, 4, 1, 1, 1, 1, 1, 1, 1, 1, 1, 0, 0, 1, 2⟩ =
      some (1 * 1 * 1 * (1 / 4) * 1 * 1 * 1) :=
  (C6_connect_deferred 1 1 1 1 ⟨2, 4, 1, 1, 1, 1, 1, 1, 1, 1, 1, 0, 0, 1, 2⟩).2
    (by decide) (by norm_num) (by norm_num) (by norm_num) (by norm_num) (by norm_num)

/-- C7 (counterexample): the per-path RNG state is not a function of
(iteration, pixel_id, sample_id, ray_id) alone: two `fill_queue` calls over
the same pixels, samples and ray indices whose `std::random_device` draws
differ (`seed_base = 0` versus `seed_base = 99`) produce different seeds, so
two runs of the renderer are not bit-identical. -/
theorem C7_counterexample :
    fillQueueStates 2 2 0 1 0 ≠ fillQueueStates 2 2 0 1 99 := by
  decide

/-- C7 (amended): ray `k` of a `fill_queue` call starting at `next_pixel`
receives pixel index `i % (width·height)`, sample index `i / (width·height)`
and the seed obtained by four Bernstein-hash steps from the
`std::random_device` draw `seed_base` and the global ray index
`i = next_pixel + k`; the state is reproducible only for a fixed
`seed_base`. -/
theorem C7_fill_queue_seeding (width height next_pixel count seed_base k : ℕ)
    (hk : k < count) :
    (fillQueueStates width height next_pixel count seed_base)[k]? =
      some { pixel_id := (next_pixel + k) % (width * height)
             sample_id := (next_pixel + k) / (width * height)
             seed := hashSeed seed_base (next_pixel + k)
             discard_count := hashSeed seed_base (next_pixel + k) % 5 + 16 +
               (next_pixel + k) % (width * height) % 5 } := by
  simp [fillQueueStates, hk]

/-- C7 witness: the first ray of a `fill_queue` call with `seed_base = 0`. -/
theorem C7_fill_queue_seeding_witness :
    0 < 1 ∧ (fillQueueStates 2 2 0 1 0)[0]? =
      some { pixel_id := 0, sample_id := 0, seed := 0, discard_count := 16 } :=
  ⟨by decide, C7_fill_queue_seeding 2 2 0 1 0 0 (by decide)⟩

/-- C8: `sample_material_out` yields no defined value for the combine, mirror
and glass materials — their `sample_out` bodies are empty and control reaches
the end of the function without returning — while the lambert and emissive
materials do return a value.  This contradicts the claim that no call can
reach the end of the function without returning. -/
theorem C8_sample_out_no_return (clr : ℝ) (normal hemi_dir : Vec3 ℝ) (hemi_pdf : ℝ) :
    sample_material_out .combine clr normal hemi_dir hemi_pdf = none ∧
    sample_material_out .mirror clr normal hemi_dir hemi_pdf = none ∧
    sample_material_out .glass clr normal hemi_dir hemi_pdf = none ∧
    sample_material_out .lambert clr normal hemi_dir hemi_pdf =
      some (lambertSampleOutValue clr normal hemi_dir hemi_pdf) ∧
    sample_material_out .emissive clr normal hemi_dir hemi_pdf = some 0 :=
  ⟨rfl, rfl, rfl, rfl, rfl⟩

/-- C9 (counterexample): `Lambertian::eval` does not return zero for
directions in opposite hemispheres: with shading normal `(0,0,1)`,
`out_dir = (0,0,1)` and `in_dir = (0,0,-1)` the hemispheres are mismatched,
yet the returned value is `1·(1/π) ≠ 0`. -/
theorem C9_counterexample :
    mismatchedHemispheres ⟨0, 0, 1⟩ ⟨0, 0, 1⟩ ⟨0, 0, -1⟩ ∧
    lambertianEval 1 ⟨0, 0, 1⟩ ⟨0, 0, -1⟩ ≠ 0 := by
  constructor
  · rw [mismatchedHemispheres]
    norm_num [dot3]
  · rw [lambertianEval]
    simp [Real.pi_ne_zero]

/-- C9 (amended): `Lambertian::eval` returns `albedo·(1/π)` for *every* pair
of directions — it does not depend on the directions at all, so no
hemisphere test is performed in `eval` — and `LambertMaterial::eval`
likewise returns `clr·(1/π)` unconditionally. -/
theorem C9_lambertian_eval (color clr : ℝ) (out1 in1 out2 in2 normal in_dir : Vec3 ℝ) :
    lambertianEval color out1 in1 = lambertianEval color out2 in2 ∧
    lambertianEval color out1 in1 = color * (1 / Real.pi) ∧
    (lambertMaterialEval clr normal in_dir).1 = clr * (1 / Real.pi) :=
  ⟨rfl, rfl, rfl⟩

/-- C10: on hitting an emissive material, `PathTracer::process_primary_rays`
never continues the path, adds the unweighted emitted color when
`bounces == 0`, adds the throughput-weighted color after a specular bounce
when `cos_light < 1`, and adds nothing in every other case. -/
theorem C10_pt_emissive_hit (bounces : ℕ) (last_specular : Bool)
    (throughput em_color : ℚ) (normal out_dir : Vec3 ℚ) :
    (ptEmissiveHit bounces last_specular throughput em_color normal out_dir).2 = false ∧
    (bounces = 0 →
      (ptEmissiveHit bounces last_specular throughput em_color normal out_dir).1 = em_color) ∧
    (bounces ≠ 0 → last_specular = true → |dot3 normal (neg3 out_dir)| < 1 →
      (ptEmissiveHit bounces last_specular throughput em_color normal out_dir).1 =
        throughput * em_color) ∧
    (bounces ≠ 0 → last_specular = true → ¬ |dot3 normal (neg3 out_dir)| < 1 →
      (ptEmissiveHit bounces last_specular throughput em_color normal out_dir).1 = 0) ∧
    (bounces ≠ 0 → last_specular = false →
      (ptEmissiveHit bounces last_specular throughput em_color normal out_dir).1 = 0) := by
  unfold ptEmissiveHit
  by_cases hb : bounces = 0
  · simp [hb]
  · cases last_specular
    · simp [hb]
    · by_cases hc : |dot3 normal (neg3 out_dir)| < 1
      · simp [hb, hc]
      · simp [hb, hc]

/-- C10 witness: after one non-specular bounce-free specular hit with grazing
cosine `1`, nothing is added and the path ends. -/
theorem C10_pt_emissive_hit_witness :
    (ptEmissiveHit 1 true 2 3 ⟨0, 0, 1⟩ ⟨0, 0, 1⟩).1 = 0 ∧
    (ptEmissiveHit 1 true 2 3 ⟨0, 0, 1⟩ ⟨0, 0, 1⟩).2 = false :=
  ⟨(C10_pt_emissive_hit 1 true 2 3 ⟨0, 0, 1⟩ ⟨0, 0, 1⟩).2.2.2.1
      (by decide) rfl (by norm_num [dot3, neg3]),
   (C10_pt_emissive_hit 1 true 2 3 ⟨0, 0, 1⟩ ⟨0, 0, 1⟩).1⟩

end Imbatracer
